import Mathlib

/-!
Shallow embedding of the app manager of OSP_aoapps (`src/aoapps_mngr.cpp` /
`src/aoapps_mngr.h`).

Modelling conventions:
* `aoresult_t` becomes `AoResult`: `ok` is `aoresult_ok`; every other result
  code is `err n` for some numeric discriminator `n`.
* `AORESULT_ASSERT` failures are modelled as `Except.error Crash.assertFail`
  (a defined fatal abort); C undefined behaviour (modulo by zero) is modelled
  as `Except.error Crash.undefinedBehavior`.
* The external collaborators (the app entry points, the topology builder
  `aomw_topo_build_*`, the broadcasts `aoosp_send_clrerror` /
  `aoosp_send_goactive`, and the Arduino clock `millis()`) are oracles: a
  `StepEnv` record supplies, per manager call, the `millis()` value and the
  results those collaborators would return.  Calls made to them are recorded
  in an event trace (`List Event`) so that "invokes X exactly once" is
  provable.  `millis()` is sampled once per manager call.
* Pointers that the C code only compares against NULL are modelled by
  `Option` (strings) or `Bool` (function pointers: `true` = non-null).
* LED/OLED/serial output (`aoui32_*`, `Serial.printf`) has no observable
  state in any claim and is not modelled; the timestamp updates performed by
  `aoapps_mngr_showstatus` are modelled because the claims depend on them.
* C `uint32_t` clock arithmetic (`millis()-last`) is `usub32`, subtraction
  modulo 2^32 on `Nat`.
-/

/-- Result type `aoresult_t`: `ok` or an error with a numeric discriminator. -/
inductive AoResult where
  | ok : AoResult
  | err : Nat → AoResult
deriving DecidableEq

/-- How a C-level run can abort: a failed `AORESULT_ASSERT` (defined fatal
abort) versus genuine C undefined behaviour. -/
inductive Crash where
  | assertFail : Crash
  | undefinedBehavior : Crash
deriving DecidableEq

/-- Calls the manager makes to its external collaborators, in order. -/
inductive Event where
  | appStart : Event        -- current app's start()
  | appStep : Event         -- current app's step()
  | appStop : Event         -- current app's stop()
  | topoBuildStart : Event  -- aomw_topo_build_start()
  | topoBuildStep : Event   -- aomw_topo_build_step()
  | clrerror : Event        -- aoosp_send_clrerror(0x000)
  | goactive : Event        -- aoosp_send_goactive(0x000)
deriving DecidableEq

/-- States of the "with topo" sub-state-machine (`aoapps_mngr_state_e`). -/
inductive TopoState where
  | TOPOBUILD : TopoState
  | APPANIM : TopoState
  | ERROR : TopoState
deriving DecidableEq

/-- AOAPPS_MNGR_REGISTRATION_SLOTS (aoapps_mngr.h). -/
def AOAPPS_MNGR_REGISTRATION_SLOTS : Nat := 8

/-- AOAPPS_MNGR_FLAGS_WITHTOPO (aoapps_mngr.h). -/
def AOAPPS_MNGR_FLAGS_WITHTOPO : Nat := 0x01

/-- AOAPPS_MNGR_FLAGS_WITHREPAIR (aoapps_mngr.h). -/
def AOAPPS_MNGR_FLAGS_WITHREPAIR : Nat := 0x02

/-- AOAPPS_MNGR_FLAGS_NEXTONERR (aoapps_mngr.h). -/
def AOAPPS_MNGR_FLAGS_NEXTONERR : Nat := 0x04

/-- AOAPPS_MNGR_FLAGS_ALL (aoapps_mngr.h). -/
def AOAPPS_MNGR_FLAGS_ALL : Nat :=
  AOAPPS_MNGR_FLAGS_WITHTOPO ||| AOAPPS_MNGR_FLAGS_WITHREPAIR ||| AOAPPS_MNGR_FLAGS_NEXTONERR

/-- AOAPPS_MNGR_HEARTBEAT_MS (aoapps_mngr.cpp). -/
def AOAPPS_MNGR_HEARTBEAT_MS : Nat := 500

/-- AOAPPS_MNGR_REPAIR_MS (aoapps_mngr.cpp). -/
def AOAPPS_MNGR_REPAIR_MS : Nat := 250

/-- AOAPPS_MNGR_ERROR_MS (aoapps_mngr.cpp). -/
def AOAPPS_MNGR_ERROR_MS : Nat := 10000

/-- A stored app descriptor (`aoapps_mngr_app_t`).  The behaviour of the
start/step/stop function pointers is supplied by the `StepEnv` oracle, so the
descriptor stores only the data fields the manager reads; `cmd` records
whether the configuration handler pointer is non-null. -/
structure App where
  name : String
  oled : String
  xlbl : String
  ylbl : String
  flags : Nat
  cmd : Bool
  help : Option String
deriving DecidableEq

/-- A zero-initialized slot of the C array `aoapps_mngr_apps[8] = {}` (flags
0, null pointers); what an out-of-range read of the fixed array yields. -/
def zeroApp : App :=
  { name := "", oled := "", xlbl := "", ylbl := "", flags := 0, cmd := false, help := none }

/-- The arguments of `aoapps_mngr_register`.  Nullable `const char *`
arguments are `Option String`; the start/step/stop/cmd function-pointer
arguments are `Bool` (`true` = non-null), since the code only null-checks
them. -/
structure RegArgs where
  name : Option String
  oled : Option String
  xlbl : Option String
  ylbl : Option String
  flags : Nat
  start : Bool
  step : Bool
  stop : Bool
  cmd : Bool
  help : Option String
deriving DecidableEq

/-- The manager's global state: the registry (`aoapps_mngr_count`,
`aoapps_mngr_apps`), the supervisor globals (`aoapps_mngr_appix`,
`aoapps_mngr_moderun`, `aoapps_mngr_result`, the three timestamps) and the
"with topo" sub-machine globals (`aoapps_mngr_state`, `aoapps_mngr_error`). -/
structure MngrState where
  count : Nat
  apps : List App
  appix : Nat
  moderun : Bool
  result : AoResult
  lastgrn : Nat
  lastrepair : Nat
  lasterror : Nat
  topoState : TopoState
  topoError : AoResult
deriving DecidableEq

/-- The oracle for one manager call: the `millis()` value during the call and
the results the external collaborators would return if called. -/
structure StepEnv where
  now : Nat            -- millis()
  appStart : AoResult  -- what the current app's start() returns
  appStep : AoResult   -- what the current app's step() returns
  topoDone : Bool      -- aomw_topo_build_done()
  topoStep : AoResult  -- aomw_topo_build_step()
  clrerror : AoResult  -- aoosp_send_clrerror(0x000)
  goactive : AoResult  -- aoosp_send_goactive(0x000)
deriving DecidableEq

deriving instance DecidableEq for Except

/-- 2^32, the modulus of the `uint32_t` millisecond clock. -/
def U32 : Nat := 4294967296

/-- C `uint32_t` subtraction `a - b` (the idiom `millis()-last`). -/
def usub32 (a b : Nat) : Nat := (a % U32 + U32 - b % U32) % U32

/-- The current app read from the slot array, `aoapps_mngr_apps[appix]`. -/
def curApp (st : MngrState) : App := st.apps.getD st.appix zeroApp

/-- C `%` on the manager's (non-negative) int operands; a zero divisor is
undefined behaviour in C. -/
def cmod (a b : Nat) : Except Crash Nat :=
  if b = 0 then Except.error Crash.undefinedBehavior else Except.ok (a % b)

/-- `aoapps_mngr_register` (aoapps_mngr.cpp lines 141-162): asserts capacity,
non-null arguments, cmd/help both-or-neither, flags within
AOAPPS_MNGR_FLAGS_ALL, and `isalnum` on each character of `name` (a loop
that passes vacuously on the empty string); then appends the descriptor at
slot `count` and increments `count`.  The C function returns void; the new
state is the observable outcome. -/
def aoapps_mngr_register (a : RegArgs) (st : MngrState) : Except Crash MngrState :=
  if AOAPPS_MNGR_REGISTRATION_SLOTS ≤ st.count then Except.error Crash.assertFail
  else if a.name = none ∨ a.oled = none ∨ a.xlbl = none ∨ a.ylbl = none ∨
          a.start = false ∨ a.step = false ∨ a.stop = false then Except.error Crash.assertFail
  else if ((!a.cmd) == a.help.isNone) = false then Except.error Crash.assertFail
  else if a.flags &&& (U32 - 1 - AOAPPS_MNGR_FLAGS_ALL) ≠ 0 then Except.error Crash.assertFail
  else if ((a.name.getD "").toList.all Char.isAlphanum) = false then Except.error Crash.assertFail
  else Except.ok { st with
    count := st.count + 1,
    apps := st.apps ++ [{ name := a.name.getD "", oled := a.oled.getD "",
                          xlbl := a.xlbl.getD "", ylbl := a.ylbl.getD "",
                          flags := a.flags, cmd := a.cmd, help := a.help }] }

/-- `aoapps_mngr_showstatus` (lines 214-233): on a non-ok latched result,
stamps `lasterror` (and drives the red LED / OLED, not modelled); otherwise
toggles the heartbeat LED and stamps `lastgrn` when more than
AOAPPS_MNGR_HEARTBEAT_MS elapsed. -/
def aoapps_mngr_showstatus (env : StepEnv) (st : MngrState) : MngrState :=
  if st.result ≠ AoResult.ok then
    { st with lasterror := env.now % U32 }
  else if AOAPPS_MNGR_HEARTBEAT_MS < usub32 env.now st.lastgrn then
    { st with lastgrn := env.now % U32 }
  else st

/-- `aoapps_mngr_repair` (lines 237-248): when more than AOAPPS_MNGR_REPAIR_MS
elapsed since `lastrepair`, broadcasts clrerror then goactive, returning the
first non-ok broadcast result; `lastrepair` is stamped only when both
succeed.  Otherwise does nothing and returns ok. -/
def aoapps_mngr_repair (env : StepEnv) (st : MngrState) : AoResult × MngrState × List Event :=
  if AOAPPS_MNGR_REPAIR_MS < usub32 env.now st.lastrepair then
    if env.clrerror ≠ AoResult.ok then (env.clrerror, st, [Event.clrerror])
    else if env.goactive ≠ AoResult.ok then (env.goactive, st, [Event.clrerror, Event.goactive])
    else (AoResult.ok, { st with lastrepair := env.now % U32 }, [Event.clrerror, Event.goactive])
  else (AoResult.ok, st, [])

/-- `aoapps_mngr_startwithtopo` (lines 462-467): clears the sub-machine error,
enters TOPOBUILD, kicks off the topology build, and returns the (just
cleared, hence ok) sub-machine error. -/
def aoapps_mngr_startwithtopo (st : MngrState) : AoResult × MngrState × List Event :=
  (AoResult.ok,
   { st with topoError := AoResult.ok, topoState := TopoState.TOPOBUILD },
   [Event.topoBuildStart])

/-- `aoapps_mngr_stepwithtopo` (lines 470-496).  In TOPOBUILD with the build
not done it runs one build step, latches its result into `topoError`, moves
to ERROR on a non-ok result, and returns `aoresult_ok` (the literal
`return aoresult_ok; // loop topo build`).  In TOPOBUILD with the build done
it calls the app's start(); the C code assigns state ERROR on a non-ok start
and then unconditionally overwrites it with APPANIM on the next line, so the
final state is APPANIM either way.  In APPANIM it forwards to the app's
step(), moving to ERROR on a non-ok result.  ERROR is absorbing and returns
the latched `topoError`. -/
def aoapps_mngr_stepwithtopo (env : StepEnv) (st : MngrState) : AoResult × MngrState × List Event :=
  match st.topoState with
  | TopoState.TOPOBUILD =>
    if env.topoDone = false then
      (AoResult.ok,
       { st with topoError := env.topoStep,
                 topoState := if env.topoStep ≠ AoResult.ok then TopoState.ERROR
                              else TopoState.TOPOBUILD },
       [Event.topoBuildStep])
    else
      (env.appStart,
       { st with topoError := env.appStart, topoState := TopoState.APPANIM },
       [Event.appStart])
  | TopoState.APPANIM =>
    (env.appStep,
     { st with topoError := env.appStep,
               topoState := if env.appStep ≠ AoResult.ok then TopoState.ERROR
                            else TopoState.APPANIM },
     [Event.appStep])
  | TopoState.ERROR => (st.topoError, st, [])

/-- The app-level phase of `aoapps_mngr_step` (lines 325-329): the app's own
step() directly, or through the topo wrapper when WITHTOPO is set. -/
def appPhase (env : StepEnv) (st : MngrState) : AoResult × MngrState × List Event :=
  if (curApp st).flags &&& AOAPPS_MNGR_FLAGS_WITHTOPO ≠ 0 then
    aoapps_mngr_stepwithtopo env st
  else
    (env.appStep, st, [Event.appStep])

/-- `aoapps_mngr_start` (lines 271-297): asserts a non-empty registry, the
stopped mode, and a valid index (the C `0<=appix` half is implicit in `Nat`);
makes `appix` current, enters run mode, stamps the heartbeat, calls the
app's start() (or the topo wrapper's), latches the result and shows status. -/
def aoapps_mngr_start (env : StepEnv) (appix : Nat) (st : MngrState) :
    Except Crash (MngrState × List Event) :=
  if st.count = 0 then Except.error Crash.assertFail
  else if st.moderun = true then Except.error Crash.assertFail
  else if st.count ≤ appix then Except.error Crash.assertFail
  else
    let st1 := { st with appix := appix, moderun := true, lastgrn := env.now % U32 }
    let r :=
      if (curApp st1).flags &&& AOAPPS_MNGR_FLAGS_WITHTOPO ≠ 0 then
        aoapps_mngr_startwithtopo st1
      else (env.appStart, st1, [Event.appStart])
    Except.ok (aoapps_mngr_showstatus env { r.2.1 with result := r.1 }, r.2.2)

/-- `aoapps_mngr_stop` (lines 348-355): asserts run mode, calls the app's
stop() (whose void return is not observed), and clears the run flag. -/
def aoapps_mngr_stop (st : MngrState) : Except Crash (MngrState × List Event) :=
  if st.moderun = false then Except.error Crash.assertFail
  else Except.ok ({ st with moderun := false }, [Event.appStop])

/-- `aoapps_mngr_switch` (lines 369-372): stop, then start `appix`. -/
def aoapps_mngr_switch (env : StepEnv) (appix : Nat) (st : MngrState) :
    Except Crash (MngrState × List Event) := do
  let s1 ← aoapps_mngr_stop st
  let s2 ← aoapps_mngr_start env appix s1.1
  Except.ok (s2.1, s1.2 ++ s2.2)

/-- `aoapps_mngr_switchnext` (lines 382-384): computes
`appix % (count-1) + 1` (C evaluates the argument first; a zero divisor is
undefined behaviour) and switches to it. -/
def aoapps_mngr_switchnext (env : StepEnv) (st : MngrState) :
    Except Crash (MngrState × List Event) := do
  let m ← cmod st.appix (st.count - 1)
  aoapps_mngr_switch env (m + 1) st

/-- `aoapps_mngr_step` (lines 312-337): asserts run mode.  With a non-ok
latched result it does nothing, except that when the current app has
NEXTONERR and more than AOAPPS_MNGR_ERROR_MS elapsed since `lasterror` it
performs switchnext (and returns without showing status).  With an ok latch
it runs the app phase, latches the result, runs the repair phase when the
result is ok and the app has WITHREPAIR, and shows status. -/
def aoapps_mngr_step (env : StepEnv) (st : MngrState) :
    Except Crash (MngrState × List Event) :=
  if st.moderun = false then Except.error Crash.assertFail
  else if st.result ≠ AoResult.ok then
    if (curApp st).flags &&& AOAPPS_MNGR_FLAGS_NEXTONERR ≠ 0 then
      if AOAPPS_MNGR_ERROR_MS < usub32 env.now st.lasterror then
        aoapps_mngr_switchnext env st
      else Except.ok (st, [])
    else Except.ok (st, [])
  else
    let a := appPhase env st
    let st1 := { a.2.1 with result := a.1 }
    if a.1 = AoResult.ok ∧ (curApp st1).flags &&& AOAPPS_MNGR_FLAGS_WITHREPAIR ≠ 0 then
      let r := aoapps_mngr_repair env st1
      Except.ok (aoapps_mngr_showstatus env { r.2.1 with result := r.1 }, a.2.2 ++ r.2.2)
    else
      Except.ok (aoapps_mngr_showstatus env st1, a.2.2)

/-- The registration call made by `aoapps_mngr_voidapp_register` (lines
49-54). -/
def voidappRegArgs : RegArgs :=
  { name := some "voidapp", oled := some "USB command", xlbl := some "--", ylbl := some "--",
    flags := 0, start := true, step := true, stop := true, cmd := false, help := none }

/-- `aoapps_mngr_init` (lines 200-210): clears the registry and supervisor
state, registers the void app, stamps the three timestamps. -/
def aoapps_mngr_init (now : Nat) : Except Crash MngrState := do
  let st0 : MngrState :=
    { count := 0, apps := [], appix := 0, moderun := false, result := AoResult.ok,
      lastgrn := 0, lastrepair := 0, lasterror := 0,
      topoState := TopoState.TOPOBUILD, topoError := AoResult.ok }
  let st1 ← aoapps_mngr_register voidappRegArgs st0
  Except.ok { st1 with lastgrn := now % U32, lastrepair := now % U32, lasterror := now % U32 }

/-! Concrete fixtures used by witnesses and counterexamples. -/

/-- The void app descriptor as stored by `aoapps_mngr_voidapp_register`. -/
def voidApp : App :=
  { name := "voidapp", oled := "USB command", xlbl := "--", ylbl := "--",
    flags := 0, cmd := false, help := none }

/-- A demo app descriptor with the given flags. -/
def demoApp (fl : Nat) : App :=
  { name := "demo", oled := "Demo app", xlbl := "X", ylbl := "Y",
    flags := fl, cmd := false, help := none }

/-- A running manager state with the void app and one demo app (current) with
the given flags. -/
def demoState (fl : Nat) : MngrState :=
  { count := 2, apps := [voidApp, demoApp fl], appix := 1, moderun := true,
    result := AoResult.ok, lastgrn := 0, lastrepair := 0, lasterror := 0,
    topoState := TopoState.TOPOBUILD, topoError := AoResult.ok }

/-- An environment where every collaborator reports success and the topology
build is still in progress. -/
def quietEnv (now : Nat) : StepEnv :=
  { now := now, appStart := AoResult.ok, appStep := AoResult.ok,
    topoDone := false, topoStep := AoResult.ok,
    clrerror := AoResult.ok, goactive := AoResult.ok }

/-- Environment for the C1 failing input: the build is done and the app's
start() fails. -/
def c1Env : StepEnv :=
  { now := 0, appStart := AoResult.err 1, appStep := AoResult.ok,
    topoDone := true, topoStep := AoResult.ok,
    clrerror := AoResult.ok, goactive := AoResult.ok }

/-- C1: evaluation of the WITH_TOPOLOGY sub-machine at the failing input: in
TOPOBUILD with the build done and the app's start() returning `err 1`, the
wrapper invokes start() exactly once and surfaces `err 1` as the step result,
but the sub-machine ends the step in APPANIM, not ERROR — the code's ERROR
assignment on a failed start is immediately overwritten by the unconditional
APPANIM assignment on the next line. -/
theorem C1_failed_start_state_eval :
    (aoapps_mngr_stepwithtopo c1Env (demoState 1)).2.2 = [Event.appStart] ∧
    (aoapps_mngr_stepwithtopo c1Env (demoState 1)).1 = AoResult.err 1 ∧
    (aoapps_mngr_stepwithtopo c1Env (demoState 1)).2.1.topoState = TopoState.APPANIM ∧
    ¬ (aoapps_mngr_stepwithtopo c1Env (demoState 1)).2.1.topoState = TopoState.ERROR := by
  decide

/-- Environment for the C2 counterexample: the build is not done and the
incremental build step fails with `err 2`. -/
def c2Env : StepEnv :=
  { now := 0, appStart := AoResult.ok, appStep := AoResult.ok,
    topoDone := false, topoStep := AoResult.err 2,
    clrerror := AoResult.ok, goactive := AoResult.ok }

/-- C2 counterexample: in TOPOBUILD with the build not done, the result of
this step is `aoresult_ok`, not the builder's `buildStep()` result `err 2`:
the builder's incremental result is not forwarded as this step's result. -/
theorem C2_counterexample :
    (demoState 1).topoState = TopoState.TOPOBUILD ∧
    c2Env.topoDone = false ∧
    c2Env.topoStep = AoResult.err 2 ∧
    (aoapps_mngr_stepwithtopo c2Env (demoState 1)).1 = AoResult.ok ∧
    (aoapps_mngr_stepwithtopo c2Env (demoState 1)).1 ≠ c2Env.topoStep := by
  decide

/-- C2 (amended): in TOPOBUILD with the build not done, the step performs
exactly one buildStep() and returns `aoresult_ok` regardless of buildStep's
result; that result is latched into the sub-machine error; when it is ok the
sub-machine stays in TOPOBUILD, and when it is non-ok the sub-machine moves
to ERROR and the latched result is returned by every following sub-machine
step. -/
theorem C2_topobuild_step (env : StepEnv) (st : MngrState)
    (hs : st.topoState = TopoState.TOPOBUILD) (hd : env.topoDone = false) :
    (aoapps_mngr_stepwithtopo env st).1 = AoResult.ok ∧
    (aoapps_mngr_stepwithtopo env st).2.2 = [Event.topoBuildStep] ∧
    (aoapps_mngr_stepwithtopo env st).2.1.topoError = env.topoStep ∧
    (env.topoStep = AoResult.ok →
      (aoapps_mngr_stepwithtopo env st).2.1.topoState = TopoState.TOPOBUILD) ∧
    (env.topoStep ≠ AoResult.ok →
      (aoapps_mngr_stepwithtopo env st).2.1.topoState = TopoState.ERROR ∧
      ∀ env2, (aoapps_mngr_stepwithtopo env2 (aoapps_mngr_stepwithtopo env st).2.1).1
                = env.topoStep) := by
  by_cases he : env.topoStep = AoResult.ok <;>
    simp [aoapps_mngr_stepwithtopo, hs, hd, he]

/-- C2 witness: the amended theorem applied at a concrete state and
environment with a failing build step. -/
theorem C2_topobuild_step_witness :
    (aoapps_mngr_stepwithtopo c2Env (demoState 1)).1 = AoResult.ok ∧
    (aoapps_mngr_stepwithtopo c2Env (demoState 1)).2.2 = [Event.topoBuildStep] ∧
    (aoapps_mngr_stepwithtopo c2Env (demoState 1)).2.1.topoError = c2Env.topoStep ∧
    (c2Env.topoStep = AoResult.ok →
      (aoapps_mngr_stepwithtopo c2Env (demoState 1)).2.1.topoState = TopoState.TOPOBUILD) ∧
    (c2Env.topoStep ≠ AoResult.ok →
      (aoapps_mngr_stepwithtopo c2Env (demoState 1)).2.1.topoState = TopoState.ERROR ∧
      ∀ env2, (aoapps_mngr_stepwithtopo env2 (aoapps_mngr_stepwithtopo c2Env (demoState 1)).2.1).1
                = c2Env.topoStep) :=
  C2_topobuild_step c2Env (demoState 1) rfl rfl

/-- A running manager state with only the void app registered
(`count() == 1`). -/
def c3State : MngrState :=
  { count := 1, apps := [voidApp], appix := 0, moderun := true,
    result := AoResult.ok, lastgrn := 0, lastrepair := 0, lasterror := 0,
    topoState := TopoState.TOPOBUILD, topoError := AoResult.ok }

/-- C3 counterexample: with only the void app registered, switchnext is not
rejected or special-cased (which would be a defined fatal assertion) — it
evaluates the wrap formula `appix % (count-1)` with a zero modulus, which is
undefined behaviour. -/
theorem C3_counterexample :
    c3State.count = 1 ∧
    aoapps_mngr_switchnext (quietEnv 0) c3State = Except.error Crash.undefinedBehavior ∧
    aoapps_mngr_switchnext (quietEnv 0) c3State ≠ Except.error Crash.assertFail := by
  decide

/-- C3 (amended): switchnext performs no guard for `count() == 1`; in that
case it evaluates the wrap formula with modulus `count-1 = 0`, division by
zero, i.e. undefined behaviour.  `count() > 1` is an unchecked caller
precondition. -/
theorem C3_switchnext_single_app (env : StepEnv) (st : MngrState) (h : st.count = 1) :
    aoapps_mngr_switchnext env st = Except.error Crash.undefinedBehavior := by
  simp [aoapps_mngr_switchnext, cmod, h]
  rfl

/-- C3 witness: the amended theorem applied at the concrete single-app
state. -/
theorem C3_switchnext_single_app_witness :
    aoapps_mngr_switchnext (quietEnv 5) c3State = Except.error Crash.undefinedBehavior :=
  C3_switchnext_single_app (quietEnv 5) c3State rfl

/-- C6: while the latched result is non-ok and the current app does not have
NEXTONERR, step() is a no-op: it returns the state unchanged and performs no
external call (no app step, no topology build, no repair broadcast). -/
theorem C6_error_latch_noop (env : StepEnv) (st : MngrState)
    (hrun : st.moderun = true) (herr : st.result ≠ AoResult.ok)
    (hflag : (curApp st).flags &&& AOAPPS_MNGR_FLAGS_NEXTONERR = 0) :
    aoapps_mngr_step env st = Except.ok (st, []) := by
  simp [aoapps_mngr_step, hrun, herr, hflag]

/-- A latched-error state whose current app has no flags. -/
def c6State : MngrState := { demoState 0 with result := AoResult.err 5 }

/-- C6 witness: the no-op theorem applied at a concrete latched-error state,
long after the error. -/
theorem C6_error_latch_noop_witness :
    aoapps_mngr_step (quietEnv 99999) c6State = Except.ok (c6State, []) :=
  C6_error_latch_noop (quietEnv 99999) c6State (by decide) (by decide) (by decide)

/-- C8: with `count() ≥ 2` and a running current app, switchnext switches to
`appix % (count-1) + 1`, a target that is never the void app 0 and always
satisfies `1 ≤ target < count`. -/
theorem C8_switchnext_target (env : StepEnv) (st : MngrState)
    (hc : 2 ≤ st.count) (hix : st.appix < st.count) (hrun : st.moderun = true) :
    aoapps_mngr_switchnext env st =
      aoapps_mngr_switch env (st.appix % (st.count - 1) + 1) st ∧
    1 ≤ st.appix % (st.count - 1) + 1 ∧
    st.appix % (st.count - 1) + 1 < st.count := by
  have hne : st.count - 1 ≠ 0 := by omega
  refine ⟨?_, ?_, ?_⟩
  · simp [aoapps_mngr_switchnext, cmod, hne]
    rfl
  · omega
  · have hlt := Nat.mod_lt st.appix (Nat.pos_of_ne_zero hne)
    omega

/-- C8 witness: the target theorem applied at a concrete two-app running
state. -/
theorem C8_switchnext_target_witness :
    aoapps_mngr_switchnext (quietEnv 0) (demoState 0) =
      aoapps_mngr_switch (quietEnv 0)
        ((demoState 0).appix % ((demoState 0).count - 1) + 1) (demoState 0) ∧
    1 ≤ (demoState 0).appix % ((demoState 0).count - 1) + 1 ∧
    (demoState 0).appix % ((demoState 0).count - 1) + 1 < (demoState 0).count :=
  C8_switchnext_target (quietEnv 0) (demoState 0) (by decide) (by decide) (by decide)

/-- C10: in a running state, stop() calls the app's own stop() (its void
return unobserved) and changes only the run flag: index, latched result,
count, stored descriptors and all three timestamps are unchanged. -/
theorem C10_stop_frame (st : MngrState) (hrun : st.moderun = true) :
    aoapps_mngr_stop st = Except.ok ({ st with moderun := false }, [Event.appStop]) ∧
    ({ st with moderun := false } : MngrState).appix = st.appix ∧
    ({ st with moderun := false } : MngrState).result = st.result ∧
    ({ st with moderun := false } : MngrState).count = st.count ∧
    ({ st with moderun := false } : MngrState).apps = st.apps ∧
    ({ st with moderun := false } : MngrState).lastgrn = st.lastgrn ∧
    ({ st with moderun := false } : MngrState).lastrepair = st.lastrepair ∧
    ({ st with moderun := false } : MngrState).lasterror = st.lasterror := by
  simp [aoapps_mngr_stop, hrun]

/-- C10 witness: the frame theorem applied at a concrete running state. -/
theorem C10_stop_frame_witness :
    aoapps_mngr_stop (demoState 0) =
      Except.ok ({ demoState 0 with moderun := false }, [Event.appStop]) ∧
    ({ demoState 0 with moderun := false } : MngrState).appix = (demoState 0).appix ∧
    ({ demoState 0 with moderun := false } : MngrState).result = (demoState 0).result ∧
    ({ demoState 0 with moderun := false } : MngrState).count = (demoState 0).count ∧
    ({ demoState 0 with moderun := false } : MngrState).apps = (demoState 0).apps ∧
    ({ demoState 0 with moderun := false } : MngrState).lastgrn = (demoState 0).lastgrn ∧
    ({ demoState 0 with moderun := false } : MngrState).lastrepair = (demoState 0).lastrepair ∧
    ({ demoState 0 with moderun := false } : MngrState).lasterror = (demoState 0).lasterror :=
  C10_stop_frame (demoState 0) (by decide)

/-- A fresh manager state with an empty registry. -/
def emptySt : MngrState :=
  { count := 0, apps := [], appix := 0, moderun := false, result := AoResult.ok,
    lastgrn := 0, lastrepair := 0, lasterror := 0,
    topoState := TopoState.TOPOBUILD, topoError := AoResult.ok }

/-- Registration arguments that satisfy every checked precondition but carry
an empty (non-null) name. -/
def c4Args : RegArgs :=
  { name := some "", oled := some "Oled", xlbl := some "X", ylbl := some "Y",
    flags := 0, start := true, step := true, stop := true, cmd := false, help := none }

/-- Whether a registration call passes all assertions. -/
def regOk (a : RegArgs) (st : MngrState) : Bool :=
  match aoapps_mngr_register a st with
  | Except.ok _ => true
  | Except.error _ => false

/-- C4 counterexample: registering with the empty (non-null) name is not
fatal — the per-character alphanumeric loop passes vacuously and the call
succeeds. -/
theorem C4_counterexample :
    c4Args.name = some "" ∧
    regOk c4Args emptySt = true ∧
    aoapps_mngr_register c4Args emptySt ≠ Except.error Crash.assertFail := by
  decide

/-- C4 (amended): register() checks, with a fatal assertion on violation,
exactly these preconditions: capacity not exceeded; name/displayName/xLabel/
yLabel/start/step/stop non-null; configHandler and helpText both present or
both absent; flags a subset of the defined flag bits; and every character of
name alphanumeric.  Name non-emptiness is NOT among them: the character loop
passes vacuously on the empty string, so an empty name registers
successfully. -/
theorem C4_register_validation (a : RegArgs) (st : MngrState) :
    regOk a st = true ↔
      (st.count < AOAPPS_MNGR_REGISTRATION_SLOTS ∧
       a.name ≠ none ∧ a.oled ≠ none ∧ a.xlbl ≠ none ∧ a.ylbl ≠ none ∧
       a.start = true ∧ a.step = true ∧ a.stop = true ∧
       (a.cmd = false ↔ a.help = none) ∧
       a.flags &&& (U32 - 1 - AOAPPS_MNGR_FLAGS_ALL) = 0 ∧
       ((a.name.getD "").toList.all Char.isAlphanum) = true) := by
  unfold regOk aoapps_mngr_register
  split_ifs with h1 h2 h3 h4 h5
  · constructor
    · exact fun h => absurd h (by simp)
    · exact fun hc => absurd hc.1 (Nat.not_lt.mpr h1)
  · constructor
    · exact fun h => absurd h (by simp)
    · intro hc
      obtain ⟨-, c1, c2, c3, c4, c5, c6, c7, -, -, -⟩ := hc
      rcases h2 with h | h | h | h | h | h | h <;> simp_all
  · constructor
    · exact fun h => absurd h (by simp)
    · intro hc
      obtain ⟨-, -, -, -, -, -, -, -, hch, -, -⟩ := hc
      cases hcm : a.cmd <;> cases hhp : a.help <;> simp_all
  · constructor
    · exact fun h => absurd h (by simp)
    · intro hc
      obtain ⟨-, -, -, -, -, -, -, -, -, hfl, -⟩ := hc
      exact h4 hfl
  · constructor
    · exact fun h => absurd h (by simp)
    · intro hc
      obtain ⟨-, -, -, -, -, -, -, -, -, -, hal⟩ := hc
      rw [hal] at h5
      simp at h5
  · constructor
    · rintro -
      push_neg at h2
      obtain ⟨c1, c2, c3, c4, c5, c6, c7⟩ := h2
      refine ⟨Nat.lt_of_not_le h1, c1, c2, c3, c4, by simpa using c5, by simpa using c6,
              by simpa using c7, ?_, not_ne_iff.mp h4, by simpa using h5⟩
      cases hcm : a.cmd <;> cases hhp : a.help <;> simp_all
    · exact fun hc => rfl

/-- A latched-error state whose current app has the NEXTONERR flag. -/
def c5State : MngrState := { demoState 4 with result := AoResult.err 7 }

/-- Environment at exactly 10000 ms after the error was latched. -/
def c5Env : StepEnv := quietEnv 10000

/-- C5 counterexample: with the error latched, NEXTONERR set and exactly
10000 ms elapsed ("at least 10000 ms"), step() does nothing — switchnext
fires only strictly after 10000 ms. -/
theorem C5_counterexample :
    usub32 c5Env.now c5State.lasterror = AOAPPS_MNGR_ERROR_MS ∧
    c5State.moderun = true ∧
    c5State.result ≠ AoResult.ok ∧
    (curApp c5State).flags &&& AOAPPS_MNGR_FLAGS_NEXTONERR ≠ 0 ∧
    aoapps_mngr_step c5Env c5State = Except.ok (c5State, []) ∧
    aoapps_mngr_switchnext c5Env c5State ≠ Except.ok (c5State, []) := by
  decide

/-- C5 (amended): with the error latched and the current app flagged
NEXTONERR, step() performs switchnext exactly when strictly more than
10000 ms have elapsed since the error was latched, and does nothing (state
unchanged, no external calls) otherwise — at exactly 10000 ms it still does
nothing. -/
theorem C5_error_escalation (env : StepEnv) (st : MngrState)
    (hrun : st.moderun = true) (herr : st.result ≠ AoResult.ok)
    (hflag : (curApp st).flags &&& AOAPPS_MNGR_FLAGS_NEXTONERR ≠ 0) :
    aoapps_mngr_step env st =
      (if AOAPPS_MNGR_ERROR_MS < usub32 env.now st.lasterror
       then aoapps_mngr_switchnext env st
       else Except.ok (st, [])) := by
  simp [aoapps_mngr_step, hrun, herr, hflag]

/-- Environment well past the 10-second escalation timeout. -/
def c5wEnv : StepEnv := quietEnv 20000

/-- C5 witness: the escalation theorem applied at a concrete latched-error
state 20000 ms after the error. -/
theorem C5_error_escalation_witness :
    aoapps_mngr_step c5wEnv c5State =
      (if AOAPPS_MNGR_ERROR_MS < usub32 c5wEnv.now c5State.lasterror
       then aoapps_mngr_switchnext c5wEnv c5State
       else Except.ok (c5State, [])) :=
  C5_error_escalation c5wEnv c5State (by decide) (by decide) (by decide)

/-- The topo wrapper step only touches the sub-machine fields: index, app
table, repair timestamp and latched supervisor result are preserved. -/
lemma stepwithtopo_frame (env : StepEnv) (st : MngrState) :
    (aoapps_mngr_stepwithtopo env st).2.1.appix = st.appix ∧
    (aoapps_mngr_stepwithtopo env st).2.1.apps = st.apps ∧
    (aoapps_mngr_stepwithtopo env st).2.1.lastrepair = st.lastrepair ∧
    (aoapps_mngr_stepwithtopo env st).2.1.result = st.result := by
  cases hs : st.topoState <;> simp [aoapps_mngr_stepwithtopo, hs] <;> split_ifs <;> simp

/-- The app-level phase of step() preserves the same supervisor fields. -/
lemma appPhase_frame (env : StepEnv) (st : MngrState) :
    (appPhase env st).2.1.appix = st.appix ∧
    (appPhase env st).2.1.apps = st.apps ∧
    (appPhase env st).2.1.lastrepair = st.lastrepair ∧
    (appPhase env st).2.1.result = st.result := by
  unfold appPhase
  split_ifs
  · exact stepwithtopo_frame env st
  · exact ⟨rfl, rfl, rfl, rfl⟩

/-- Status reporting never changes the latched result. -/
lemma showstatus_result (env : StepEnv) (st : MngrState) :
    (aoapps_mngr_showstatus env st).result = st.result := by
  unfold aoapps_mngr_showstatus
  split_ifs <;> rfl

/-- The repair tick characterized: events and returned result as functions of
the elapsed time and the two broadcast outcomes. -/
lemma repair_spec (env : StepEnv) (st : MngrState) :
    (aoapps_mngr_repair env st).2.2 =
      (if AOAPPS_MNGR_REPAIR_MS < usub32 env.now st.lastrepair then
         (if env.clrerror ≠ AoResult.ok then [Event.clrerror]
          else [Event.clrerror, Event.goactive])
       else []) ∧
    (aoapps_mngr_repair env st).1 =
      (if AOAPPS_MNGR_REPAIR_MS < usub32 env.now st.lastrepair then
         (if env.clrerror ≠ AoResult.ok then env.clrerror
          else if env.goactive ≠ AoResult.ok then env.goactive
          else AoResult.ok)
       else AoResult.ok) := by
  unfold aoapps_mngr_repair
  split_ifs <;> simp_all

/-- Reduction of step() in the healthy WITHREPAIR case: the app phase runs,
its (ok) result is latched, the repair tick runs on the latched state, and
status is shown. -/
lemma step_ok_withrepair (env : StepEnv) (st : MngrState)
    (hrun : st.moderun = true) (hlat : st.result = AoResult.ok)
    (hok : (appPhase env st).1 = AoResult.ok)
    (hflag : (curApp st).flags &&& AOAPPS_MNGR_FLAGS_WITHREPAIR ≠ 0) :
    aoapps_mngr_step env st =
      Except.ok
        (aoapps_mngr_showstatus env
          { (aoapps_mngr_repair env
              { (appPhase env st).2.1 with result := (appPhase env st).1 }).2.1 with
            result := (aoapps_mngr_repair env
              { (appPhase env st).2.1 with result := (appPhase env st).1 }).1 },
         (appPhase env st).2.2 ++
           (aoapps_mngr_repair env
             { (appPhase env st).2.1 with result := (appPhase env st).1 }).2.2) := by
  have hfr := appPhase_frame env st
  have hcur : curApp { (appPhase env st).2.1 with result := (appPhase env st).1 } = curApp st := by
    simp [curApp, hfr.1, hfr.2.1]
  simp only [aoapps_mngr_step]
  split_ifs with g1 g2 g3 g4 g5
  · rw [hrun] at g1
    exact absurd g1 (by simp)
  · exact absurd hlat g2
  · exact absurd hlat g2
  · exact absurd hlat g2
  · rfl
  · exact absurd ⟨hok, hcur.symm ▸ hflag⟩ g5

/-- Environment at exactly 250 ms after the last repair. -/
def c7Env : StepEnv := quietEnv 250

/-- C7 counterexample: with the app-level step ok, WITHREPAIR set and exactly
250 ms elapsed since the last repair ("at least 250 ms"), step() issues no
broadcast at all — the repair pair fires only strictly after 250 ms. -/
theorem C7_counterexample :
    usub32 c7Env.now (demoState 2).lastrepair = AOAPPS_MNGR_REPAIR_MS ∧
    (demoState 2).result = AoResult.ok ∧
    (curApp (demoState 2)).flags &&& AOAPPS_MNGR_FLAGS_WITHREPAIR ≠ 0 ∧
    (appPhase c7Env (demoState 2)).1 = AoResult.ok ∧
    aoapps_mngr_step c7Env (demoState 2) = Except.ok (demoState 2, [Event.appStep]) := by
  decide

/-- C7 (amended): in a step whose app-level phase (direct or through the topo
wrapper) returns ok, with WITHREPAIR set: when strictly more than 250 ms have
elapsed since the last repair, the step issues a chain-wide clear-error
broadcast followed, second and in order, by a chain-wide activate broadcast
(the activate is only issued when the clear-error returned ok), always after
the app-level events and at most once; the step's latched result is the first
failing broadcast's result, or ok.  When at most 250 ms have elapsed, no
broadcast is issued and the result stays ok. -/
theorem C7_repair_pair (env : StepEnv) (st : MngrState)
    (hrun : st.moderun = true) (hlat : st.result = AoResult.ok)
    (hok : (appPhase env st).1 = AoResult.ok)
    (hflag : (curApp st).flags &&& AOAPPS_MNGR_FLAGS_WITHREPAIR ≠ 0) :
    ∃ stF,
      aoapps_mngr_step env st =
        Except.ok (stF,
          (appPhase env st).2.2 ++
          (if AOAPPS_MNGR_REPAIR_MS < usub32 env.now st.lastrepair then
             (if env.clrerror ≠ AoResult.ok then [Event.clrerror]
              else [Event.clrerror, Event.goactive])
           else [])) ∧
      stF.result =
        (if AOAPPS_MNGR_REPAIR_MS < usub32 env.now st.lastrepair then
           (if env.clrerror ≠ AoResult.ok then env.clrerror
            else if env.goactive ≠ AoResult.ok then env.goactive
            else AoResult.ok)
         else AoResult.ok) := by
  have hfr := appPhase_frame env st
  have hlr : ({ (appPhase env st).2.1 with result := (appPhase env st).1 } :
      MngrState).lastrepair = st.lastrepair := by
    simp [hfr.2.2.1]
  have hrsp := repair_spec env { (appPhase env st).2.1 with result := (appPhase env st).1 }
  refine ⟨aoapps_mngr_showstatus env
      { (aoapps_mngr_repair env
          { (appPhase env st).2.1 with result := (appPhase env st).1 }).2.1 with
        result := (aoapps_mngr_repair env
          { (appPhase env st).2.1 with result := (appPhase env st).1 }).1 }, ?_, ?_⟩
  · rw [step_ok_withrepair env st hrun hlat hok hflag, hrsp.1, hlr]
  · rw [showstatus_result]
    simpa [hfr.2.2.1] using hrsp.2

/-- C7 witness: the repair-pair theorem applied at a concrete WITHREPAIR
state 300 ms after the last repair. -/
theorem C7_repair_pair_witness :
    ∃ stF,
      aoapps_mngr_step (quietEnv 300) (demoState 2) =
        Except.ok (stF,
          (appPhase (quietEnv 300) (demoState 2)).2.2 ++
          (if AOAPPS_MNGR_REPAIR_MS < usub32 (quietEnv 300).now (demoState 2).lastrepair then
             (if (quietEnv 300).clrerror ≠ AoResult.ok then [Event.clrerror]
              else [Event.clrerror, Event.goactive])
           else [])) ∧
      stF.result =
        (if AOAPPS_MNGR_REPAIR_MS < usub32 (quietEnv 300).now (demoState 2).lastrepair then
           (if (quietEnv 300).clrerror ≠ AoResult.ok then (quietEnv 300).clrerror
            else if (quietEnv 300).goactive ≠ AoResult.ok then (quietEnv 300).goactive
            else AoResult.ok)
         else AoResult.ok) :=
  C7_repair_pair (quietEnv 300) (demoState 2) (by decide) (by decide) (by decide) (by decide)

/-- Lookup of the just-appended element of a list. -/
lemma getD_append_length {α : Type} (l : List α) (x d : α) :
    (l ++ [x]).getD l.length d = x := by
  induction l with
  | nil => rfl
  | cons a t ih => simpa using ih

/-- C9: a successful registration increments count by exactly 1, count never
exceeds the 8 slots, the registry length tracks count, and the new descriptor
is recorded at the index equal to the pre-call count (the registration index
handed out to the app). -/
theorem C9_register_monotonic (a : RegArgs) (st st1 : MngrState)
    (hlen : st.apps.length = st.count)
    (hok : aoapps_mngr_register a st = Except.ok st1) :
    st1.count = st.count + 1 ∧
    st1.count ≤ AOAPPS_MNGR_REGISTRATION_SLOTS ∧
    st1.apps.length = st1.count ∧
    st1.apps.getD st.count zeroApp =
      { name := a.name.getD "", oled := a.oled.getD "", xlbl := a.xlbl.getD "",
        ylbl := a.ylbl.getD "", flags := a.flags, cmd := a.cmd, help := a.help } := by
  unfold aoapps_mngr_register at hok
  split_ifs at hok with h1 h2 h3 h4 h5 <;> simp at hok
  subst hok
  refine ⟨by simp, ?_, by simp [hlen], ?_⟩
  · simp
    omega
  · dsimp only
    rw [← hlen]
    exact getD_append_length _ _ _

/-- Registration arguments for a demo "runled" app. -/
def c9Args : RegArgs :=
  { name := some "runled", oled := some "Running LEDs", xlbl := some "X", ylbl := some "Y",
    flags := 1, start := true, step := true, stop := true, cmd := false, help := none }

/-- A state right after init: one registered app (the void app). -/
def c9St : MngrState :=
  { count := 1, apps := [voidApp], appix := 0, moderun := false, result := AoResult.ok,
    lastgrn := 0, lastrepair := 0, lasterror := 0,
    topoState := TopoState.TOPOBUILD, topoError := AoResult.ok }

/-- The descriptor stored for `c9Args`. -/
def c9App : App :=
  { name := "runled", oled := "Running LEDs", xlbl := "X", ylbl := "Y",
    flags := 1, cmd := false, help := none }

/-- The state after registering `c9Args` on `c9St`. -/
def c9St1 : MngrState := { c9St with count := 2, apps := [voidApp, c9App] }

/-- C9 witness: the monotonicity theorem applied to a concrete successful
registration. -/
theorem C9_register_monotonic_witness :
    c9St1.count = c9St.count + 1 ∧
    c9St1.count ≤ AOAPPS_MNGR_REGISTRATION_SLOTS ∧
    c9St1.apps.length = c9St1.count ∧
    c9St1.apps.getD c9St.count zeroApp =
      { name := c9Args.name.getD "", oled := c9Args.oled.getD "", xlbl := c9Args.xlbl.getD "",
        ylbl := c9Args.ylbl.getD "", flags := c9Args.flags, cmd := c9Args.cmd,
        help := c9Args.help } :=
  C9_register_monotonic c9Args c9St c9St1 (by decide) (by decide)
